import Mathlib

/-!
Shallow embedding of `v2/pkg/protocols/headless/engine/page.go` from the
nuclei headless engine: the tab-session interception subsystem (hijack-mode
decision, exchange-history ledger, out-of-band URL ledger, session lifecycle
`Run` / `Close` / `URL` / `DumpHistory`).

External collaborators (the rod browser driver, the action pipeline) are
modelled as oracles: an `Env` record supplies the result of each external
call in the order `Run` makes them, and background interception loops are
tracked by explicit boolean flags in the outcome ("is this loop running
when `Run` returns / after `Close`").
-/

namespace HeadlessEngine

/-- Modelled from the spec: the closed `ActionType` enumeration is declared
outside this file (only its five mutating members appear in the source's
`containsAnyModificationActionType` switch). The five mutating constructors
are taken verbatim from the source switch; the remaining constructors stand
for the non-mutating action kinds (navigate, click, script, wait, extract)
the spec lists. -/
inductive ActionType where
  | ActionNavigate
  | ActionScript
  | ActionClick
  | ActionWaitLoad
  | ActionExtract
  | ActionSetMethod
  | ActionAddHeader
  | ActionSetHeader
  | ActionDeleteHeader
  | ActionSetBody
deriving DecidableEq, Repr

/-- Modelled from the spec: the holder through which an `Action` exposes its
declared `ActionType` (the source reads `action.ActionType.ActionType`). -/
structure ActionTypeHolder where
  ActionType : ActionType
deriving DecidableEq, Repr

/-- Modelled from the spec: an action of the pipeline; the core only needs
its declared `ActionType` classification. -/
structure Action where
  ActionType : ActionTypeHolder
deriving DecidableEq, Repr

/-- Modelled from the spec: a mutation rule; the source reads a single
trigger `rule.Action : ActionType` per rule
(`containsAnyModificationActionType(rule.Action)`). -/
structure rule where
  Action : ActionType
deriving DecidableEq, Repr

/-- One completed request/response exchange (`HistoryData` in the source). -/
structure HistoryData where
  RawRequest : String
  RawResponse : String
deriving DecidableEq, Repr

/-- The tab session (`Page` in the source). The `rod.Page` handle, the
`Instance` back-pointer and the mutex are external/runtime artifacts and are
not part of the data model; the nilable hijack handles `hijackRouter` and
`hijackNative` are modelled as booleans ("handle is non-nil"). The Go zero
values of omitted fields (nil slices/maps) are the empty list. -/
structure Page where
  rules : List rule
  hijackRouter : Bool
  hijackNative : Bool
  History : List HistoryData
  InteractshURLs : List String
  payloads : List (String × String)
deriving DecidableEq, Repr

/-- Source `containsAnyModificationActionType` (variadic, modelled as a
list): the switch returns true exactly on the five mutating action types. -/
def containsAnyModificationActionType (actionTypes : List ActionType) : Bool :=
  actionTypes.any fun actionType =>
    match actionType with
    | .ActionSetMethod => true
    | .ActionAddHeader => true
    | .ActionSetHeader => true
    | .ActionDeleteHeader => true
    | .ActionSetBody => true
    | _ => false

/-- Source `Page.hasModificationRules`: some declared rule's trigger is a
mutating action type. -/
def Page.hasModificationRules (p : Page) : Bool :=
  p.rules.any fun r => containsAnyModificationActionType [r.Action]

/-- Source `containsModificationActions` (variadic, modelled as a list):
some supplied action's declared type is a mutating action type. -/
def containsModificationActions (actions : List Action) : Bool :=
  actions.any fun action =>
    containsAnyModificationActionType [action.ActionType.ActionType]

/-- Spec-side predicate (from the spec's words, for comparison with the
source decision): an action type is one of the five mutating kinds
`SetMethod, AddHeader, SetHeader, DeleteHeader, SetBody`. -/
def IsMutatingActionType (t : ActionType) : Prop :=
  t = .ActionSetMethod ∨ t = .ActionAddHeader ∨ t = .ActionSetHeader ∨
    t = .ActionDeleteHeader ∨ t = .ActionSetBody

/-- Source `Page.DumpHistory`: a `strings.Builder` loop appending each
entry's raw request then raw response, in ledger order. -/
def Page.DumpHistory (p : Page) : String :=
  p.History.foldl (fun acc historyData =>
    acc ++ historyData.RawRequest ++ historyData.RawResponse) ""

/-- Spec-side concatenation (from the spec's words, for comparison with
`Page.DumpHistory`): each entry's raw request text immediately followed by
that entry's raw response text, in append order, and nothing else. -/
def historyConcatSpec : List HistoryData → String
  | [] => ""
  | historyData :: rest =>
      historyData.RawRequest ++ historyData.RawResponse ++ historyConcatSpec rest

/-- Source `Page.addToHistory` (variadic, modelled as a list): appends the
given entries to the history ledger under the write lock. -/
def Page.addToHistory (p : Page) (historyData : List HistoryData) : Page :=
  { p with History := p.History ++ historyData }

/-- Source `Page.addInteractshURL` (variadic, modelled as a list): appends
the given URLs to the out-of-band URL ledger under the write lock. -/
def Page.addInteractshURL (p : Page) (URLs : List String) : Page :=
  { p with InteractshURLs := p.InteractshURLs ++ URLs }

/-- Result of the external `page.Info()` lookup. -/
structure PageInfo where
  URL : String
deriving DecidableEq, Repr

/-- Source `Page.URL`: the external info lookup either fails (empty string
returned, error dropped) or yields the page info whose URL is returned. -/
def Page.URL (_p : Page) (infoResult : Except String PageInfo) : String :=
  match infoResult with
  | .error _ => ""
  | .ok info => info.URL

deriving instance DecidableEq for Except

/-- Oracle for the external calls `Instance.Run` makes, in source order:
tab creation (`i.engine.Page`), the configured custom user agent and the
result of `page.SetUserAgent`, the result of `hijackRouter.Add` (request
stage), `page.SetViewport`, `page.SetExtraHeaders`, and the action
pipeline `createdPage.ExecuteActions` (yielding the string-keyed result
map). Errors are modelled as strings. -/
structure Env where
  pageResult : Except String Unit
  customAgent : String
  setUserAgentResult : Except String Unit
  hijackAddResult : Except String Unit
  setViewportResult : Except String Unit
  setExtraHeadersResult : Except String Unit
  executeActionsResult : Except String (List (String × String))
deriving DecidableEq, Repr

/-- What `Instance.Run` hands back, together with the state of the two
background interception loops at the moment it returns:
`routerLoopRunning` is true when the `go hijackRouter.Run()` goroutine of
the request-stage router was started and not stopped, `nativeLoopRunning`
likewise for the native response-stage loop. -/
structure RunOutcome where
  data : Option (List (String × String))
  page : Option Page
  err : Option String
  routerLoopRunning : Bool
  nativeLoopRunning : Bool
deriving DecidableEq, Repr

/-- The `createdPage` struct literal in `Instance.Run`:
`&Page{page: page, instance: i, mutex: &sync.RWMutex{}, payloads: payloads}`
leaves `rules`, `hijackRouter`, `hijackNative`, `History` and
`InteractshURLs` at their Go zero values. -/
def initialPage (payloads : List (String × String)) : Page :=
  { rules := []
    hijackRouter := false
    hijackNative := false
    History := []
    InteractshURLs := []
    payloads := payloads }

/-- Tail of `Instance.Run` after the hijack mechanism has been installed
and its background loop started: `SetViewport`, `SetExtraHeaders`, then
`ExecuteActions`; each error path returns `nil, nil, err` without
stopping the already-started loop (source lines 67 to 85). -/
def runAfterHijack (env : Env) (createdPage : Page)
    (router native : Bool) : RunOutcome :=
  match env.setViewportResult with
  | .error e =>
      { data := none, page := none, err := some e
        routerLoopRunning := router, nativeLoopRunning := native }
  | .ok _ =>
    match env.setExtraHeadersResult with
    | .error e =>
        { data := none, page := none, err := some e
          routerLoopRunning := router, nativeLoopRunning := native }
    | .ok _ =>
      match env.executeActionsResult with
      | .error e =>
          { data := none, page := none, err := some e
            routerLoopRunning := router, nativeLoopRunning := native }
      | .ok data =>
          { data := some data, page := some createdPage, err := none
            routerLoopRunning := router, nativeLoopRunning := native }

/-- Middle of `Instance.Run`: build `createdPage`, decide the hijack mode
(`hasModificationRules || containsModificationActions`), install the
request-stage router (its `Add` may fail; on success `go hijackRouter.Run()`
starts the loop) or the native response-stage hijack (loop started via the
spawned goroutine), then continue with `runAfterHijack`. -/
def runCreated (env : Env) (actions : List Action)
    (payloads : List (String × String)) : RunOutcome :=
  let createdPage := initialPage payloads
  if createdPage.hasModificationRules || containsModificationActions actions then
    match env.hijackAddResult with
    | .error e =>
        { data := none, page := none, err := some e
          routerLoopRunning := false, nativeLoopRunning := false }
    | .ok _ =>
        runAfterHijack env { createdPage with hijackRouter := true } true false
  else
    runAfterHijack env { createdPage with hijackNative := true } false true

/-- Source `Instance.Run`: create the tab (propagating failure), configure
the custom user agent only when one is configured (propagating failure),
then `runCreated`. Every failure returns a nil result map and a nil page
handle alongside the error. -/
def Instance.Run (env : Env) (actions : List Action)
    (payloads : List (String × String)) : RunOutcome :=
  match env.pageResult with
  | .error e =>
      { data := none, page := none, err := some e
        routerLoopRunning := false, nativeLoopRunning := false }
  | .ok _ =>
    if env.customAgent ≠ "" then
      match env.setUserAgentResult with
      | .error e =>
          { data := none, page := none, err := some e
            routerLoopRunning := false, nativeLoopRunning := false }
      | .ok _ => runCreated env actions payloads
    else
      runCreated env actions payloads

/-- Loop/tab state a `Close` call acts on. -/
structure World where
  routerLoopRunning : Bool
  nativeLoopRunning : Bool
  tabReleased : Bool
deriving DecidableEq, Repr

/-- The externally visible steps `Page.Close` performs, in order. -/
inductive CloseStep where
  | stopRouter
  | stopNative
  | releaseTab
deriving DecidableEq, Repr

/-- Source `Page.Close`: if a request-stage router handle is present, stop
it (`_ = p.hijackRouter.Stop()`, error dropped); if a native hijack handle
is present, stop it (`_ = p.hijackNative.Stop()`, error dropped); then
close the tab (`p.page.Close()`). The two `Stop` results are passed in as
oracles and, as in the source, discarded. Returns the resulting world and
the ordered list of steps taken. -/
def Page.Close (p : Page)
    (_stopRouterResult _stopNativeResult : Except String Unit)
    (w : World) : World × List CloseStep :=
  let stepRouter :=
    if p.hijackRouter then
      ({ w with routerLoopRunning := false }, [CloseStep.stopRouter])
    else (w, [])
  let stepNative :=
    if p.hijackNative then
      ({ stepRouter.1 with nativeLoopRunning := false },
        stepRouter.2 ++ [CloseStep.stopNative])
    else stepRouter
  ({ stepNative.1 with tabReleased := true },
    stepNative.2 ++ [CloseStep.releaseTab])

/-- Run outcome of every failing path of `Instance.Run` before a loop was
started: nil result map, nil page handle, the error, no loop running. -/
def nilOutcome (e : String) : RunOutcome :=
  { data := none, page := none, err := some e
    routerLoopRunning := false, nativeLoopRunning := false }

/-- Statement helper: tab creation succeeded and the user-agent step did not
fail (either no custom agent is configured, so the step is skipped, or the
override call succeeded). -/
def agentStageOk (env : Env) : Prop :=
  env.pageResult = .ok () ∧
    (env.customAgent = "" ∨ env.setUserAgentResult = .ok ())

/-- Statement helper: everything up to and including hijack installation
succeeded (the request-stage `Add` result only matters when the router mode
is selected, i.e. when the action list contains a mutating action type;
`Run` is always called with an empty rule set on the fresh page). -/
def hijackStageOk (env : Env) (actions : List Action) : Prop :=
  agentStageOk env ∧
    (containsModificationActions actions = true → env.hijackAddResult = .ok ())

/-! ### Helper lemmas -/

theorem containsAny_single_iff (t : ActionType) :
    containsAnyModificationActionType [t] = true ↔ IsMutatingActionType t := by
  cases t <;> simp [containsAnyModificationActionType, IsMutatingActionType]

theorem initialPage_hasModificationRules (payloads : List (String × String)) :
    (initialPage payloads).hasModificationRules = false := by
  simp [initialPage, Page.hasModificationRules]

theorem run_of_agentStageOk (env : Env) (actions : List Action)
    (payloads : List (String × String)) (h : agentStageOk env) :
    Instance.Run env actions payloads = runCreated env actions payloads := by
  obtain ⟨hp, hca⟩ := h
  rcases hca with hc | hu
  · simp [Instance.Run, hp, hc]
  · by_cases hc : env.customAgent = "" <;> simp [Instance.Run, hp, hc, hu]

theorem runCreated_eq (env : Env) (actions : List Action)
    (payloads : List (String × String)) :
    runCreated env actions payloads =
      if containsModificationActions actions = true then
        match env.hijackAddResult with
        | .error e => nilOutcome e
        | .ok _ =>
            runAfterHijack env { initialPage payloads with hijackRouter := true }
              true false
      else
        runAfterHijack env { initialPage payloads with hijackNative := true }
          false true := by
  rw [runCreated]
  rw [show (initialPage payloads).hasModificationRules = false from
    initialPage_hasModificationRules payloads]
  simp only [Bool.false_or, nilOutcome]

theorem runAfterHijack_page_cases (env : Env) (createdPage : Page)
    (router native : Bool) :
    (runAfterHijack env createdPage router native).page = none ∨
      (runAfterHijack env createdPage router native).page = some createdPage := by
  unfold runAfterHijack
  rcases env.setViewportResult with e | u
  · exact Or.inl rfl
  · rcases env.setExtraHeadersResult with e | u
    · exact Or.inl rfl
    · rcases env.executeActionsResult with e | data
      · exact Or.inl rfl
      · exact Or.inr rfl

theorem run_page_cases (env : Env) (actions : List Action)
    (payloads : List (String × String)) :
    (Instance.Run env actions payloads).page = none ∨
      (Instance.Run env actions payloads).page
          = some { initialPage payloads with hijackRouter := true } ∨
      (Instance.Run env actions payloads).page
          = some { initialPage payloads with hijackNative := true } := by
  have hcreated : (runCreated env actions payloads).page = none ∨
      (runCreated env actions payloads).page
          = some { initialPage payloads with hijackRouter := true } ∨
      (runCreated env actions payloads).page
          = some { initialPage payloads with hijackNative := true } := by
    rw [runCreated_eq]
    by_cases hm : containsModificationActions actions = true
    · simp only [hm, if_true]
      rcases env.hijackAddResult with e | u
      · exact Or.inl rfl
      · rcases runAfterHijack_page_cases env
            { initialPage payloads with hijackRouter := true } true false with h | h
        · exact Or.inl h
        · exact Or.inr (Or.inl h)
    · simp only [hm, if_false]
      rcases runAfterHijack_page_cases env
          { initialPage payloads with hijackNative := true } false true with h | h
      · exact Or.inl h
      · exact Or.inr (Or.inr h)
  unfold Instance.Run
  rcases env.pageResult with e | u
  · exact Or.inl rfl
  · by_cases hc : env.customAgent = ""
    · simpa [hc] using hcreated
    · rcases hu : env.setUserAgentResult with e | u
      · simp [hc, hu]
      · simpa [hc, hu] using hcreated

theorem dumpHistory_foldl (l : List HistoryData) (acc : String) :
    l.foldl (fun acc historyData =>
        acc ++ historyData.RawRequest ++ historyData.RawResponse) acc
      = acc ++ historyConcatSpec l := by
  induction l generalizing acc with
  | nil => simp [historyConcatSpec]
  | cons h t ih =>
      simp only [List.foldl_cons, historyConcatSpec]
      rw [ih]
      simp [String.append_assoc]

/-! ### Claim theorems -/

/-- C1: the hijack-mode decision evaluated at session creation
(`hasModificationRules || containsModificationActions`) selects the
request-stage router (RuleHijack) exactly when some declared rule's
trigger, or some action in the supplied action list, carries a mutating
`ActionType` (`SetMethod, AddHeader, SetHeader, DeleteHeader, SetBody`);
otherwise the native response-stage hijack (PassiveHijack) is selected.
The decision is a pure boolean function of the rules and the actions. -/
theorem hijack_mode_selection_rule (p : Page) (actions : List Action) :
    (p.hasModificationRules || containsModificationActions actions) = true ↔
      (∃ r ∈ p.rules, IsMutatingActionType r.Action) ∨
        ∃ a ∈ actions, IsMutatingActionType a.ActionType.ActionType := by
  simp [Page.hasModificationRules, containsModificationActions,
    List.any_eq_true, containsAny_single_iff]

/-- C4: `Page.Close` is total and idempotent: a second call (with any stop
results) reproduces the first call's outcome exactly; the outcome never
depends on the stop/close results (failures are swallowed, and `Close`
returns no error by construction); the tab handle is released exactly once,
as the last step, after stopping whichever hijack mechanism was installed;
and after `Close` the loop of every installed mechanism is no longer
running while the tab is released. -/
theorem close_idempotent_stops_then_releases (p : Page) (w : World)
    (r₁ r₂ r₃ r₄ : Except String Unit) :
    Page.Close p r₁ r₂ (Page.Close p r₃ r₄ w).1 = Page.Close p r₃ r₄ w ∧
    Page.Close p r₁ r₂ w = Page.Close p r₃ r₄ w ∧
    (Page.Close p r₁ r₂ w).2.getLast? = some CloseStep.releaseTab ∧
    CloseStep.releaseTab ∉ (Page.Close p r₁ r₂ w).2.dropLast ∧
    ((CloseStep.stopRouter ∈ (Page.Close p r₁ r₂ w).2) ↔ p.hijackRouter = true) ∧
    ((CloseStep.stopNative ∈ (Page.Close p r₁ r₂ w).2) ↔ p.hijackNative = true) ∧
    (Page.Close p r₁ r₂ w).1.routerLoopRunning
        = (!p.hijackRouter && w.routerLoopRunning) ∧
    (Page.Close p r₁ r₂ w).1.nativeLoopRunning
        = (!p.hijackNative && w.nativeLoopRunning) ∧
    (Page.Close p r₁ r₂ w).1.tabReleased = true := by
  cases hr : p.hijackRouter <;> cases hn : p.hijackNative <;>
    simp [Page.Close, hr, hn]

/-- C6: `DumpHistory` returns exactly the concatenation, in append order,
of each recorded entry's raw request text immediately followed by that
entry's raw response text, and nothing else; an empty history yields the
empty string. -/
theorem dumpHistory_is_concat (p : Page) :
    p.DumpHistory = historyConcatSpec p.History ∧
      Page.DumpHistory { p with History := [] } = "" := by
  constructor
  · rw [Page.DumpHistory, dumpHistory_foldl, String.empty_append]
  · rfl

/-- C7: both ledgers are append-only: `addToHistory` extends the history by
exactly the given entries in argument order and leaves the previously
recorded sequence as a prefix of the new one (every old entry unchanged, in
place), without touching the out-of-band URL ledger; `addInteractshURL`
does the same for the out-of-band URL ledger without touching the history;
neither reorders nor truncates either ledger. -/
theorem ledgers_append_only (p : Page) (entries : List HistoryData)
    (URLs : List String) :
    (p.addToHistory entries).History = p.History ++ entries ∧
    p.History <+: (p.addToHistory entries).History ∧
    (p.addToHistory entries).InteractshURLs = p.InteractshURLs ∧
    (p.addInteractshURL URLs).InteractshURLs = p.InteractshURLs ++ URLs ∧
    p.InteractshURLs <+: (p.addInteractshURL URLs).InteractshURLs ∧
    (p.addInteractshURL URLs).History = p.History :=
  ⟨rfl, ⟨entries, rfl⟩, rfl, rfl, ⟨URLs, rfl⟩, rfl⟩

/-- C8: `URL` never propagates a failure of the underlying `page.Info`
lookup: it returns the empty string when the lookup fails and the page's
current URL when it succeeds. -/
theorem url_empty_on_lookup_failure (p : Page) (e : String) (info : PageInfo) :
    Page.URL p (Except.error e) = "" ∧ Page.URL p (Except.ok info) = info.URL :=
  ⟨rfl, rfl⟩

/-- C9: the page `Run` constructs carries an empty rule set, so
`hasModificationRules` is false at the hijack-mode decision point and the
decision collapses to `containsModificationActions` over the supplied
action list alone; any page handle `Run` returns still has an empty rule
set. Declared rules can never, through `Run`, select the router mode by
themselves. -/
theorem run_decision_ignores_rules (env : Env) (actions : List Action)
    (payloads : List (String × String)) :
    (initialPage payloads).hasModificationRules = false ∧
    ((initialPage payloads).hasModificationRules ||
        containsModificationActions actions)
      = containsModificationActions actions ∧
    ((Instance.Run env actions payloads).page.map Page.rules).getD [] = [] := by
  refine ⟨initialPage_hasModificationRules payloads, ?_, ?_⟩
  · rw [initialPage_hasModificationRules]
    simp
  · rcases run_page_cases env actions payloads with h | h | h <;>
      simp [h, initialPage]

/-- C10: `DumpHistory` is a pure read that depends only on the `History`
field (two pages with equal histories dump the same string; in this
embedding it is a function from the page, so it can change no field);
`addToHistory` changes only the `History` field and `addInteractshURL`
changes only the `InteractshURLs` field — rules, hijack handles and
payloads are untouched by both. -/
theorem ledger_ops_frame (p q : Page) (entries : List HistoryData)
    (URLs : List String) (h : p.History = q.History) :
    p.DumpHistory = q.DumpHistory ∧
    (p.addToHistory entries).rules = p.rules ∧
    (p.addToHistory entries).hijackRouter = p.hijackRouter ∧
    (p.addToHistory entries).hijackNative = p.hijackNative ∧
    (p.addToHistory entries).InteractshURLs = p.InteractshURLs ∧
    (p.addToHistory entries).payloads = p.payloads ∧
    (p.addInteractshURL URLs).rules = p.rules ∧
    (p.addInteractshURL URLs).hijackRouter = p.hijackRouter ∧
    (p.addInteractshURL URLs).hijackNative = p.hijackNative ∧
    (p.addInteractshURL URLs).History = p.History ∧
    (p.addInteractshURL URLs).payloads = p.payloads := by
  refine ⟨?_, rfl, rfl, rfl, rfl, rfl, rfl, rfl, rfl, rfl, rfl⟩
  rw [Page.DumpHistory, Page.DumpHistory, h]

/-- C10 witness: two concrete pages with the same history but different
rules, hijack handles, URL ledgers and payloads dump the same string. -/
theorem ledger_ops_frame_witness :
    (Page.mk [⟨.ActionSetBody⟩] false false [⟨"req", "resp"⟩] [] []).DumpHistory
      = (Page.mk [] true true [⟨"req", "resp"⟩] ["u"] [("k", "v")]).DumpHistory :=
  (ledger_ops_frame _ _ [] [] rfl).1

/-- C5: every setup failure is fatal and immediate: a failing tab creation,
a failing user-agent override (reached only when a custom agent is
configured), a failing request-stage hijack `Add`, a failing viewport
configuration, or a failing extra-header configuration each makes `Run`
return that error with a nil result map and a nil session handle; and when
no custom agent is configured the user-agent step is not attempted (the
outcome is independent of its oracle result). -/
theorem run_setup_failures_fatal (env : Env) (actions : List Action)
    (payloads : List (String × String)) (e : String) :
    (env.pageResult = .error e →
      Instance.Run env actions payloads = nilOutcome e) ∧
    (env.pageResult = .ok () → env.customAgent ≠ "" →
      env.setUserAgentResult = .error e →
      Instance.Run env actions payloads = nilOutcome e) ∧
    (agentStageOk env → containsModificationActions actions = true →
      env.hijackAddResult = .error e →
      Instance.Run env actions payloads = nilOutcome e) ∧
    (hijackStageOk env actions → env.setViewportResult = .error e →
      (Instance.Run env actions payloads).data = none ∧
        (Instance.Run env actions payloads).page = none ∧
        (Instance.Run env actions payloads).err = some e) ∧
    (hijackStageOk env actions → env.setViewportResult = .ok () →
      env.setExtraHeadersResult = .error e →
      (Instance.Run env actions payloads).data = none ∧
        (Instance.Run env actions payloads).page = none ∧
        (Instance.Run env actions payloads).err = some e) ∧
    (env.customAgent = "" → ∀ r : Except String Unit,
      Instance.Run { env with setUserAgentResult := r } actions payloads
        = Instance.Run env actions payloads) := by
  refine ⟨?_, ?_, ?_, ?_, ?_, ?_⟩
  · intro h
    simp [Instance.Run, h, nilOutcome]
  · intro h₁ h₂ h₃
    simp [Instance.Run, h₁, h₂, h₃, nilOutcome]
  · intro hA hM hE
    rw [run_of_agentStageOk _ _ _ hA, runCreated_eq, if_pos hM, hE]
  · intro hH hV
    obtain ⟨hA, hAdd⟩ := hH
    rw [run_of_agentStageOk _ _ _ hA, runCreated_eq]
    by_cases hM : containsModificationActions actions = true
    · rw [if_pos hM, hAdd hM]
      simp [runAfterHijack, hV]
    · rw [if_neg hM]
      simp [runAfterHijack, hV]
  · intro hH hV hHd
    obtain ⟨hA, hAdd⟩ := hH
    rw [run_of_agentStageOk _ _ _ hA, runCreated_eq]
    by_cases hM : containsModificationActions actions = true
    · rw [if_pos hM, hAdd hM]
      simp [runAfterHijack, hV, hHd]
    · rw [if_neg hM]
      simp [runAfterHijack, hV, hHd]
  · intro hc r
    rcases henv : env.pageResult with e₀ | u
    · simp [Instance.Run, henv]
    · simp [Instance.Run, henv, hc, runCreated, runAfterHijack, initialPage]

/-- C5 witness: a concrete failing tab creation makes `Run` return exactly
the error with nil result map, nil session handle and no loop running. -/
theorem run_setup_failures_fatal_witness :
    Instance.Run
        { pageResult := .error "tab failed", customAgent := ""
          setUserAgentResult := .ok (), hijackAddResult := .ok ()
          setViewportResult := .ok (), setExtraHeadersResult := .ok ()
          executeActionsResult := .ok [] } [] []
      = nilOutcome "tab failed" :=
  (run_setup_failures_fatal _ [] [] "tab failed").1 rfl

/-- C2 counterexample: with every setup step succeeding and the action
pipeline failing, `Run` propagates the error but hands back no session
handle (`page = none`); the constructed session and the history it may hold
are not retrievable by the caller, contrary to the claim that the caller
still receives the constructed TabSession handle. -/
theorem run_actions_failure_counterexample :
    (Instance.Run
        { pageResult := .ok (), customAgent := ""
          setUserAgentResult := .ok (), hijackAddResult := .ok ()
          setViewportResult := .ok (), setExtraHeadersResult := .ok ()
          executeActionsResult := .error "actions failed" } [] []).err
        = some "actions failed" ∧
    (Instance.Run
        { pageResult := .ok (), customAgent := ""
          setUserAgentResult := .ok (), hijackAddResult := .ok ()
          setViewportResult := .ok (), setExtraHeadersResult := .ok ()
          executeActionsResult := .error "actions failed" } [] []).page
        = none :=
  ⟨rfl, rfl⟩

/-- C2 (amended): when the action pipeline fails after setup succeeded,
`Run` propagates the error to the caller but returns a nil result map and a
nil TabSession handle — the constructed session (and the history it
collected) is not handed back to the caller. -/
theorem run_actions_failure_no_session (env : Env) (actions : List Action)
    (payloads : List (String × String)) (e : String)
    (hH : hijackStageOk env actions) (hV : env.setViewportResult = .ok ())
    (hHd : env.setExtraHeadersResult = .ok ())
    (hE : env.executeActionsResult = .error e) :
    (Instance.Run env actions payloads).err = some e ∧
    (Instance.Run env actions payloads).page = none ∧
    (Instance.Run env actions payloads).data = none := by
  obtain ⟨hA, hAdd⟩ := hH
  rw [run_of_agentStageOk _ _ _ hA, runCreated_eq]
  by_cases hM : containsModificationActions actions = true
  · rw [if_pos hM, hAdd hM]
    simp [runAfterHijack, hV, hHd, hE]
  · rw [if_neg hM]
    simp [runAfterHijack, hV, hHd, hE]

/-- C2 witness: concrete instance of the amended claim, with a custom user
agent configured and a mutating action selecting the router mode. -/
theorem run_actions_failure_no_session_witness :
    (Instance.Run
        { pageResult := .ok (), customAgent := "agent"
          setUserAgentResult := .ok (), hijackAddResult := .ok ()
          setViewportResult := .ok (), setExtraHeadersResult := .ok ()
          executeActionsResult := .error "pipeline down" }
        [⟨⟨.ActionSetHeader⟩⟩] []).page = none :=
  (run_actions_failure_no_session _ _ _ "pipeline down"
    ⟨⟨rfl, Or.inr rfl⟩, fun _ => rfl⟩ rfl rfl rfl).2.1

/-- C3 counterexample: with a mutating action the request-stage router is
installed and its loop started; when `SetViewport` then fails, `Run`
returns the error with no session handle while the router loop is still
running — the half-installed hijack mechanism is not stopped before the
error is returned. -/
theorem run_leaked_loop_counterexample :
    (Instance.Run
        { pageResult := .ok (), customAgent := ""
          setUserAgentResult := .ok (), hijackAddResult := .ok ()
          setViewportResult := .error "viewport failed"
          setExtraHeadersResult := .ok (), executeActionsResult := .ok [] }
        [⟨⟨.ActionSetHeader⟩⟩] []).err = some "viewport failed" ∧
    (Instance.Run
        { pageResult := .ok (), customAgent := ""
          setUserAgentResult := .ok (), hijackAddResult := .ok ()
          setViewportResult := .error "viewport failed"
          setExtraHeadersResult := .ok (), executeActionsResult := .ok [] }
        [⟨⟨.ActionSetHeader⟩⟩] []).page = none ∧
    (Instance.Run
        { pageResult := .ok (), customAgent := ""
          setUserAgentResult := .ok (), hijackAddResult := .ok ()
          setViewportResult := .error "viewport failed"
          setExtraHeadersResult := .ok (), executeActionsResult := .ok [] }
        [⟨⟨.ActionSetHeader⟩⟩] []).routerLoopRunning = true :=
  ⟨rfl, rfl, rfl⟩

/-- C3 (amended): when a failure occurs after the hijack mechanism was
installed and its loop started (viewport, extra-header, or action-pipeline
failure), `Run` returns the error without stopping the installed loop: the
request-stage router loop (when the action list selected router mode) or
the native response-stage loop (otherwise) is still running when `Run`
returns, and the caller receives no session handle with which to stop it. -/
theorem run_late_failure_leaves_loop_running (env : Env) (actions : List Action)
    (payloads : List (String × String)) (e : String)
    (hH : hijackStageOk env actions)
    (hfail : env.setViewportResult = .error e ∨
      (env.setViewportResult = .ok () ∧
        (env.setExtraHeadersResult = .error e ∨
          (env.setExtraHeadersResult = .ok () ∧
            env.executeActionsResult = .error e)))) :
    (Instance.Run env actions payloads).err = some e ∧
    (Instance.Run env actions payloads).page = none ∧
    (Instance.Run env actions payloads).routerLoopRunning
        = containsModificationActions actions ∧
    (Instance.Run env actions payloads).nativeLoopRunning
        = !containsModificationActions actions := by
  obtain ⟨hA, hAdd⟩ := hH
  have hgoal : ∀ cp r n, (runAfterHijack env cp r n).err = some e ∧
      (runAfterHijack env cp r n).page = none ∧
      (runAfterHijack env cp r n).routerLoopRunning = r ∧
      (runAfterHijack env cp r n).nativeLoopRunning = n := by
    intro cp r n
    rcases hfail with hV | ⟨hV, hrest⟩
    · simp [runAfterHijack, hV]
    · rcases hrest with hHd | ⟨hHd, hE⟩
      · simp [runAfterHijack, hV, hHd]
      · simp [runAfterHijack, hV, hHd, hE]
  rw [run_of_agentStageOk _ _ _ hA, runCreated_eq]
  by_cases hM : containsModificationActions actions = true
  · rw [if_pos hM, hAdd hM]
    simp only [hM, Bool.not_true]
    exact hgoal _ true false
  · rw [if_neg hM]
    simp only [Bool.not_eq_true] at hM
    simp only [hM, Bool.not_false]
    exact hgoal _ false true

/-- C3 witness: concrete instance of the amended claim — failing extra
headers with a non-mutating action list leave the native response-stage
loop running. -/
theorem run_late_failure_leaves_loop_running_witness :
    (Instance.Run
        { pageResult := .ok (), customAgent := ""
          setUserAgentResult := .ok (), hijackAddResult := .ok ()
          setViewportResult := .ok ()
          setExtraHeadersResult := .error "headers failed"
          executeActionsResult := .ok [] } [] []).nativeLoopRunning = true :=
  (run_late_failure_leaves_loop_running _ [] [] "headers failed"
    ⟨⟨rfl, Or.inl rfl⟩, fun _ => rfl⟩
    (Or.inr ⟨rfl, Or.inl rfl⟩)).2.2.2

end HeadlessEngine
